import Mathlib

/-!
Shallow embedding of `src/build_targets.rs` of cargo-c: the naming resolver
(`FileNames::from_target`), the build-target aggregator (`BuildTargets::new`
and `debug_info_file_name`), and the extra-target resolver
(`extra_targets`, `ExtraTargets::setup`).  Rust `PathBuf` values are embedded
as `String`, with `Path::join`, `Path::file_name` and `Path::with_extension`
embedded as the functions below.
-/

/-- Split a character list at every occurrence of the separator `c`
(the semantics of `String.splitOn` with a one-character separator, stated
by structural recursion so that proofs can evaluate it). -/
def splitOnChar (c : Char) : List Char → List (List Char)
  | [] => [[]]
  | x :: xs =>
    match splitOnChar c xs with
    | [] => if x = c then [[], []] else [[x]]
    | y :: ys => if x = c then [] :: y :: ys else (x :: y) :: ys

/-- Embedding of Rust `Path::join`: an absolute right operand replaces the
left one; otherwise the components are separated by `/`. -/
def pathJoin (p s : String) : String :=
  if s.data.head? = some '/' then s
  else if p = "" then s
  else if p.data.getLast? = some '/' then p ++ s
  else p ++ "/" ++ s

/-- Embedding of Rust `Path::file_name`: the last normal component of the
path, `none` when the path is empty, a root, or ends in `..`. -/
def fileName (p : String) : Option String :=
  let comps := (splitOnChar '/' p.data).filter fun c => c ≠ [] ∧ c ≠ ['.']
  match comps.getLast? with
  | none => none
  | some c => if c = ['.', '.'] then none else some (String.mk c)

/-- Embedding of Rust `Path::file_stem` on a single file-name component: the
whole name when it has no dot, or when its only dot is a leading one;
otherwise the portion before the final dot. -/
def fileStem (name : List Char) : List Char :=
  match splitOnChar '.' name with
  | [] => name
  | [_] => name
  | [] :: [_] => name
  | pieces => List.intercalate ['.'] pieces.dropLast

/-- Embedding of Rust `Path::with_extension`: replace the extension of the
final component (append one if there is none). -/
def withExtension (p ext : String) : String :=
  let parts := splitOnChar '/' p.data
  match parts.getLast? with
  | none => p
  | some last =>
    if last = [] ∨ last = ['.'] ∨ last = ['.', '.'] then p
    else
      let stem := fileStem last
      let newLast := if ext = "" then stem else stem ++ '.' :: ext.data
      String.mk (List.intercalate ['/'] (parts.dropLast ++ [newLast]))

/-- The `Target` struct (`crate::target::Target`), with the fields used by
`build_targets.rs` and shown in its tests: `is_target_overridden`, `arch`,
`os`, `env`. -/
structure Target where
  is_target_overridden : Bool
  arch : String
  os : String
  env : String
deriving DecidableEq, Repr

/-- Modelled from the spec: an Install Target declaration carries "a path-pair
specification capable of producing one or more (source, destination) pairs
relative to a supplied root", and expanding it may fail ("raised when a
declared Install Target's path-pair cannot be resolved against its root").
The concrete paths type and its `install_paths` method live in
`src/build.rs`, outside this tree, so the specification is kept abstract as a
function from the root to either an error or the produced pairs. -/
structure InstallTargetPaths where
  install_paths : String → Except String (List (String × String))

/-- The `InstallTarget` enum from `crate::build`: an *Asset* resolves against
the source tree, a *Generated* entry against the build output directory. -/
inductive InstallTarget where
  | Asset (paths : InstallTargetPaths)
  | Generated (paths : InstallTargetPaths)

/-- The `pkg_config` part of `CApiConfig` used by `build_targets.rs`. -/
structure PkgConfigCfg where
  filename : String

/-- The `header` part of `CApiConfig` used by `build_targets.rs`. -/
structure HeaderCfg where
  enabled : Bool
  generation : Bool
  name : String

/-- The `install` part of `CApiConfig` used by `build_targets.rs`. -/
structure InstallCfg where
  «include» : List InstallTarget
  data : List InstallTarget

/-- The slice of `crate::build::CApiConfig` that `build_targets.rs` reads. -/
structure CApiConfig where
  pkg_config : PkgConfigCfg
  header : HeaderCfg
  install : InstallCfg

/-- `crate::build::LibraryTypes`: which library types were requested. -/
structure LibraryTypes where
  staticlib : Bool
  cdylib : Bool
deriving DecidableEq, Repr

/-- The `ExtraTargets` struct: resolved (source, destination) pairs for extra
headers and data files. -/
structure ExtraTargets where
  «include» : List (String × String)
  data : List (String × String)
deriving DecidableEq

/-- The free function `extra_targets`: expand each declaration against the
source root (*Asset*) or, when one was supplied, the build-output root
(*Generated*, skipped otherwise), flattening the results in order and
stopping at the first failure (Rust `filter_map` + `flatten_ok` +
`collect::<Result<_, _>>`). -/
def extra_targets (targets : List InstallTarget) (root_path : String)
    (root_output : Option String) : Except String (List (String × String)) :=
  match targets with
  | [] => Except.ok []
  | t :: rest =>
    match (match t with
           | InstallTarget.Asset paths => some (paths.install_paths root_path)
           | InstallTarget.Generated paths =>
             root_output.map fun ro => paths.install_paths ro :
           Option (Except String (List (String × String)))) with
    | none => extra_targets rest root_path root_output
    | some (Except.error e) => Except.error e
    | some (Except.ok v) =>
      match extra_targets rest root_path root_output with
      | Except.error e => Except.error e
      | Except.ok vs => Except.ok (v ++ vs)

/-- `ExtraTargets::setup`: resolve the `include` declarations, then the
`data` declarations.  Rust mutates `self` in place and early-returns on
error via `?`, so the embedding returns the (possibly partially updated)
state together with the result: `self.include` is assigned before the
`data` resolution runs. -/
def ExtraTargets.setup (self : ExtraTargets) (capi_config : CApiConfig)
    (root_dir : String) (out_dir : Option String) :
    ExtraTargets × Except String Unit :=
  match extra_targets capi_config.install.«include» root_dir out_dir with
  | Except.error e => (self, Except.error e)
  | Except.ok inc =>
    match extra_targets capi_config.install.data root_dir out_dir with
    | Except.error e => ({ self with «include» := inc }, Except.error e)
    | Except.ok d => ({ self with «include» := inc, data := d }, Except.ok ())

/-- The `FileNames` struct: the platform convention for the five artifact
slots (`def` is a Lean keyword, hence the field name `def_file`). -/
structure FileNames where
  static_lib : String
  shared_lib : String
  impl_lib : Option String
  debug_info : Option String
  def_file : Option String
deriving DecidableEq, Repr

/-- `FileNames::from_target`: the convention table.  The Rust `match` with
or-patterns on `target.os` is embedded as membership tests on the same
literal lists. -/
def FileNames.from_target (target : Target) (lib_name : String)
    (targetdir : String) : Option FileNames :=
  if target.os ∈ ["none", "linux", "freebsd", "dragonfly", "netbsd",
      "android", "haiku", "illumos", "openbsd", "emscripten", "hurd"] then
    some { static_lib := pathJoin targetdir ("lib" ++ lib_name ++ ".a")
           shared_lib := pathJoin targetdir ("lib" ++ lib_name ++ ".so")
           impl_lib := none, debug_info := none, def_file := none }
  else if target.os ∈ ["macos", "ios", "tvos", "visionos"] then
    some { static_lib := pathJoin targetdir ("lib" ++ lib_name ++ ".a")
           shared_lib := pathJoin targetdir ("lib" ++ lib_name ++ ".dylib")
           impl_lib := none, debug_info := none, def_file := none }
  else if target.os = "windows" then
    if target.env = "msvc" then
      some { static_lib := pathJoin targetdir (lib_name ++ ".lib")
             shared_lib := pathJoin targetdir (lib_name ++ ".dll")
             impl_lib := some (pathJoin targetdir (lib_name ++ ".dll.lib"))
             debug_info := some (pathJoin targetdir (lib_name ++ ".pdb"))
             def_file := some (pathJoin targetdir (lib_name ++ ".def")) }
    else
      some { static_lib := pathJoin targetdir ("lib" ++ lib_name ++ ".a")
             shared_lib := pathJoin targetdir (lib_name ++ ".dll")
             impl_lib := some (pathJoin targetdir ("lib" ++ lib_name ++ ".dll.a"))
             debug_info := none, def_file := none }
  else
    none

/-- The `BuildTargets` struct: the caller-facing artifact set. -/
structure BuildTargets where
  name : String
  «include» : Option String
  static_lib : Option String
  shared_lib : Option String
  impl_lib : Option String
  debug_info : Option String
  def_file : Option String
  pc : String
  target : Target
  extra : ExtraTargets

/-- `BuildTargets::new`: the aggregator.  `anyhow::Result` is embedded as
`Except String`. -/
def BuildTargets.new (name : String) (target : Target) (targetdir : String)
    (library_types : LibraryTypes) (capi_config : CApiConfig) :
    Except String BuildTargets :=
  let pc := pathJoin targetdir (capi_config.pkg_config.filename ++ ".pc")
  let inc :=
    if capi_config.header.enabled && capi_config.header.generation then
      some (withExtension (pathJoin targetdir capi_config.header.name) "h")
    else
      none
  match FileNames.from_target target name targetdir with
  | none =>
    Except.error
      ("The target " ++ target.os ++ "-" ++ target.env ++ " is not supported yet")
  | some file_names =>
    Except.ok
      { pc := pc
        «include» := inc
        static_lib := if library_types.staticlib then some file_names.static_lib else none
        shared_lib := if library_types.cdylib then some file_names.shared_lib else none
        impl_lib := file_names.impl_lib
        debug_info := file_names.debug_info
        def_file := file_names.def_file
        name := name
        target := target
        extra := { «include» := [], data := [] } }

/-- The `LibType` enum from `crate::install`. -/
inductive LibType where
  | So
  | Dylib
  | Windows
deriving DecidableEq, Repr

/-- Modelled from the spec: `LibType::from_build_targets` is defined in
`src/install.rs`, which is outside this tree.  Per the spec (§4.4) the
classification is "derived from which artifact fields are non-empty on the
constructed Artifact Set (presence of an import library and/or def file
implies Windows-style; absence implies SharedObject or DynamicLibrary
depending on OS family)". -/
def LibType.from_build_targets (targets : BuildTargets) : LibType :=
  if targets.impl_lib.isSome || targets.def_file.isSome then
    LibType.Windows
  else if targets.target.os ∈ ["macos", "ios", "tvos", "visionos"] then
    LibType.Dylib
  else
    LibType.So

/-- `BuildTargets::lib_type`. -/
def BuildTargets.lib_type (self : BuildTargets) : LibType :=
  LibType.from_build_targets self

/-- `BuildTargets::debug_info_file_name`: where the debug-info file installs,
given the binary and library install directories. -/
def BuildTargets.debug_info_file_name (self : BuildTargets)
    (bindir libdir : String) : Option String :=
  match self.lib_type with
  | LibType.So | LibType.Dylib => do
    let p ← self.debug_info
    let n ← fileName p
    some (pathJoin libdir n)
  | LibType.Windows => do
    let p ← self.debug_info
    let n ← fileName p
    some (pathJoin bindir n)

/-! ### Spec-side definitions and helper lemmas -/

/-- Spec-side per-declaration rule of §4.3, written from the spec's words for
comparison with `extra_targets`: an *Asset* "always resolve[s] [its]
path-pairs against the source root"; a *Generated* declaration resolves
"against the build-output root only if one was supplied", and with no output
root it "is silently skipped — not an error" (zero pairs). -/
def resolveDeclSpec (root : String) (out : Option String) :
    InstallTarget → Except String (List (String × String))
  | InstallTarget.Asset p => p.install_paths root
  | InstallTarget.Generated p =>
    match out with
    | none => Except.ok []
    | some o => p.install_paths o

/-- Spec-side whole-list rule of §4.3: expand each declaration in order,
flatten the results in declaration order, and abort at the first failure. -/
def resolveAllSpec (root : String) (out : Option String) :
    List InstallTarget → Except String (List (String × String))
  | [] => Except.ok []
  | t :: rest =>
    match resolveDeclSpec root out t with
    | Except.error e => Except.error e
    | Except.ok v =>
      match resolveAllSpec root out rest with
      | Except.error e => Except.error e
      | Except.ok vs => Except.ok (v ++ vs)

theorem extra_targets_eq_resolveAllSpec (ts : List InstallTarget)
    (root : String) (out : Option String) :
    extra_targets ts root out = resolveAllSpec root out ts := by
  induction ts with
  | nil => rfl
  | cons t rest ih =>
    cases t with
    | Asset p =>
      simp only [extra_targets, resolveAllSpec, resolveDeclSpec]
      cases h : p.install_paths root with
      | error e => simp [h]
      | ok v => simp only [h, ih]
    | Generated p =>
      cases out with
      | none =>
        simp only [extra_targets, resolveAllSpec, resolveDeclSpec, Option.map]
        rw [ih]
        cases resolveAllSpec root none rest <;> simp
      | some o =>
        simp only [extra_targets, resolveAllSpec, resolveDeclSpec, Option.map]
        cases h : p.install_paths o with
        | error e => simp [h]
        | ok v => simp only [h, ih]

theorem resolveAllSpec_error_of_mem (root : String) (out : Option String)
    (t : InstallTarget) (e : String) (ts : List InstallTarget)
    (ht : t ∈ ts) (he : resolveDeclSpec root out t = Except.error e) :
    ∃ msg, resolveAllSpec root out ts = Except.error msg := by
  induction ts with
  | nil => cases ht
  | cons hd rest ih =>
    unfold resolveAllSpec
    cases List.mem_cons.mp ht with
    | inl h =>
      subst h
      rw [he]
      exact ⟨e, rfl⟩
    | inr h =>
      cases hd' : resolveDeclSpec root out hd with
      | error e' => exact ⟨e', rfl⟩
      | ok v =>
        obtain ⟨msg, hmsg⟩ := ih h
        rw [hmsg]
        exact ⟨msg, rfl⟩

theorem string_append_ne_empty (a b : String) (hb : b ≠ "") : a ++ b ≠ "" := by
  intro hc
  apply hb
  have hd := congrArg String.data hc
  simp only [String.data_append] at hd
  rcases List.append_eq_nil.mp hd with ⟨-, h2⟩
  cases b
  simp only [String.data] at h2
  subst h2
  rfl

theorem pathJoin_ne_empty (p s : String) (hs : s ≠ "") : pathJoin p s ≠ "" := by
  unfold pathJoin
  split
  · exact hs
  · split
    · exact hs
    · split
      · exact string_append_ne_empty p s hs
      · exact string_append_ne_empty (p ++ "/") s hs

/-! ### Concrete fixtures used by witnesses and counterexamples -/

/-- A minimal configuration: header generation off, no extra targets. -/
def sampleConfig : CApiConfig :=
  { pkg_config := { filename := "capi" }
    header := { enabled := false, generation := false, name := "capi" }
    install := { «include» := [], data := [] } }

/-- A configuration with auto-generated header enabled. -/
def headerConfig : CApiConfig :=
  { pkg_config := { filename := "capi" }
    header := { enabled := true, generation := true, name := "capi" }
    install := { «include» := [], data := [] } }

/-- An asset declaration whose expansion succeeds with one pair. -/
def assetOk : InstallTarget :=
  InstallTarget.Asset ⟨fun root => Except.ok [(pathJoin root "a.h", "include/a.h")]⟩

/-- An asset declaration whose expansion fails. -/
def assetBad : InstallTarget :=
  InstallTarget.Asset ⟨fun _ => Except.error "malformed"⟩

/-- A configuration whose `include` declarations resolve but whose `data`
declarations fail. -/
def cfgDataFails : CApiConfig :=
  { pkg_config := { filename := "capi" }
    header := { enabled := false, generation := false, name := "capi" }
    install := { «include» := [assetOk], data := [assetBad] } }

/-- The artifact set produced by `BuildTargets.new` for a linux target with
only the static library requested, under `sampleConfig`. -/
def btLinux : BuildTargets :=
  { name := "x", «include» := none, static_lib := some "/o/libx.a"
    shared_lib := none, impl_lib := none, debug_info := none, def_file := none
    pc := "/o/capi.pc", target := ⟨false, "", "linux", ""⟩
    extra := ⟨[], []⟩ }

/-- An artifact set shaped like a `windows-msvc` build with a debug-info
file. -/
def btWin : BuildTargets :=
  { name := "f", «include» := none, static_lib := none, shared_lib := none
    impl_lib := some "/o/f.dll.lib", debug_info := some "/o/f.pdb"
    def_file := some "/o/f.def", pc := "/o/capi.pc"
    target := ⟨false, "", "windows", "msvc"⟩, extra := ⟨[], []⟩ }

/-- An artifact set shaped like a linux build that does carry a debug-info
path. -/
def btSo : BuildTargets :=
  { name := "f", «include» := none, static_lib := none, shared_lib := none
    impl_lib := none, debug_info := some "/o/f.debug", def_file := none
    pc := "/o/capi.pc", target := ⟨false, "", "linux", ""⟩, extra := ⟨[], []⟩ }

/-! ### The claims -/

/-- C1: on `windows`/`msvc` the naming resolver yields
`/foo/bar/ferris.lib`, `/foo/bar/ferris.dll`, `/foo/bar/ferris.dll.lib`,
`/foo/bar/ferris.pdb`, `/foo/bar/ferris.def` for library `ferris` under
`/foo/bar`; on `windows`/`gnu` it yields `/foo/bar/libferris.a`,
`/foo/bar/ferris.dll`, `/foo/bar/libferris.dll.a`, and no debug-info or
def file. -/
theorem c1_windows_naming (arch : String) (ov : Bool) :
    FileNames.from_target ⟨ov, arch, "windows", "msvc"⟩ "ferris" "/foo/bar" =
      some { static_lib := "/foo/bar/ferris.lib"
             shared_lib := "/foo/bar/ferris.dll"
             impl_lib := some "/foo/bar/ferris.dll.lib"
             debug_info := some "/foo/bar/ferris.pdb"
             def_file := some "/foo/bar/ferris.def" } ∧
    FileNames.from_target ⟨ov, arch, "windows", "gnu"⟩ "ferris" "/foo/bar" =
      some { static_lib := "/foo/bar/libferris.a"
             shared_lib := "/foo/bar/ferris.dll"
             impl_lib := some "/foo/bar/libferris.dll.a"
             debug_info := none
             def_file := none } :=
  ⟨rfl, rfl⟩

/-- C2: for every OS in the Unix-like set the naming resolver yields
`libferris.a` / `libferris.so` under `/foo/bar` with no import, debug-info
or def file; for every OS in the Apple set it yields `libferris.a` /
`libferris.dylib` likewise. -/
theorem c2_unix_apple_naming (os arch env : String) (ov : Bool) :
    (os ∈ ["none", "linux", "freebsd", "dragonfly", "netbsd", "android",
        "haiku", "illumos", "openbsd", "emscripten", "hurd"] →
      FileNames.from_target ⟨ov, arch, os, env⟩ "ferris" "/foo/bar" =
        some { static_lib := "/foo/bar/libferris.a"
               shared_lib := "/foo/bar/libferris.so"
               impl_lib := none, debug_info := none, def_file := none }) ∧
    (os ∈ ["macos", "ios", "tvos", "visionos"] →
      FileNames.from_target ⟨ov, arch, os, env⟩ "ferris" "/foo/bar" =
        some { static_lib := "/foo/bar/libferris.a"
               shared_lib := "/foo/bar/libferris.dylib"
               impl_lib := none, debug_info := none, def_file := none }) := by
  constructor <;> intro h <;>
    simp only [List.mem_cons, List.not_mem_nil, or_false] at h
  · rcases h with rfl | rfl | rfl | rfl | rfl | rfl | rfl | rfl | rfl | rfl | rfl <;> rfl
  · rcases h with rfl | rfl | rfl | rfl <;> rfl

theorem c2_unix_apple_naming_witness :
    ("linux" ∈ ["none", "linux", "freebsd", "dragonfly", "netbsd", "android",
        "haiku", "illumos", "openbsd", "emscripten", "hurd"] ∧
      FileNames.from_target ⟨false, "", "linux", ""⟩ "ferris" "/foo/bar" =
        some { static_lib := "/foo/bar/libferris.a"
               shared_lib := "/foo/bar/libferris.so"
               impl_lib := none, debug_info := none, def_file := none }) ∧
    ("macos" ∈ ["macos", "ios", "tvos", "visionos"] ∧
      FileNames.from_target ⟨false, "", "macos", ""⟩ "ferris" "/foo/bar" =
        some { static_lib := "/foo/bar/libferris.a"
               shared_lib := "/foo/bar/libferris.dylib"
               impl_lib := none, debug_info := none, def_file := none }) :=
  ⟨⟨by decide, (c2_unix_apple_naming "linux" "" "" false).1 (by decide)⟩,
   ⟨by decide, (c2_unix_apple_naming "macos" "" "" false).2 (by decide)⟩⟩

theorem from_target_unsupported (t : Target) (n d : String)
    (h : t.os ∉ ["none", "linux", "freebsd", "dragonfly", "netbsd", "android",
      "haiku", "illumos", "openbsd", "emscripten", "hurd", "macos", "ios",
      "tvos", "visionos", "windows"]) :
    FileNames.from_target t n d = none := by
  simp only [List.mem_cons, List.not_mem_nil, or_false, not_or] at h
  obtain ⟨h1, h2, h3, h4, h5, h6, h7, h8, h9, h10, h11, h12, h13, h14, h15, h16⟩ := h
  simp [FileNames.from_target, h1, h2, h3, h4, h5, h6, h7, h8, h9, h10, h11,
    h12, h13, h14, h15, h16]

/-- C3: for every target whose OS is outside the convention table,
`BuildTargets::new` fails with the single unsupported-platform error carrying
the OS and environment strings, for every requested library-type selection
(in particular when neither library type is requested), returning no
partial result. -/
theorem c3_unsupported_platform (name targetdir : String) (lt : LibraryTypes)
    (cfg : CApiConfig) (t : Target)
    (h : t.os ∉ ["none", "linux", "freebsd", "dragonfly", "netbsd", "android",
      "haiku", "illumos", "openbsd", "emscripten", "hurd", "macos", "ios",
      "tvos", "visionos", "windows"]) :
    BuildTargets.new name t targetdir lt cfg =
      Except.error
        ("The target " ++ t.os ++ "-" ++ t.env ++ " is not supported yet") := by
  unfold BuildTargets.new
  rw [from_target_unsupported t name targetdir h]

theorem c3_unsupported_platform_witness :
    ((⟨false, "arm", "fuchsia", "musl"⟩ : Target).os ∉
      ["none", "linux", "freebsd", "dragonfly", "netbsd", "android",
       "haiku", "illumos", "openbsd", "emscripten", "hurd", "macos", "ios",
       "tvos", "visionos", "windows"]) ∧
    BuildTargets.new "ferris" ⟨false, "arm", "fuchsia", "musl"⟩ "/foo/bar"
        ⟨false, false⟩ sampleConfig =
      Except.error "The target fuchsia-musl is not supported yet" :=
  ⟨by decide,
   c3_unsupported_platform "ferris" "/foo/bar" ⟨false, false⟩ sampleConfig
     ⟨false, "arm", "fuchsia", "musl"⟩ (by decide)⟩

/-- C4: in a successfully constructed artifact set the static-library field
is the resolver's static path exactly when `staticlib` was requested (absent
otherwise), the shared-library field is the resolver's shared path exactly
when `cdylib` was requested (absent otherwise), and the import-library,
debug-info and def-file fields are copied from the resolver unconditionally,
whatever the library-type selection. -/
theorem c4_field_selection (name : String) (t : Target) (targetdir : String)
    (lt : LibraryTypes) (cfg : CApiConfig) (fn : FileNames)
    (h : FileNames.from_target t name targetdir = some fn) :
    ∃ bt, BuildTargets.new name t targetdir lt cfg = Except.ok bt ∧
      bt.static_lib = (if lt.staticlib then some fn.static_lib else none) ∧
      bt.shared_lib = (if lt.cdylib then some fn.shared_lib else none) ∧
      bt.impl_lib = fn.impl_lib ∧
      bt.debug_info = fn.debug_info ∧
      bt.def_file = fn.def_file := by
  unfold BuildTargets.new
  rw [h]
  exact ⟨_, rfl, rfl, rfl, rfl, rfl, rfl⟩

theorem c4_field_selection_witness :
    FileNames.from_target ⟨false, "", "linux", ""⟩ "x" "/o" =
      some ⟨"/o/libx.a", "/o/libx.so", none, none, none⟩ ∧
    ∃ bt, BuildTargets.new "x" ⟨false, "", "linux", ""⟩ "/o" ⟨true, false⟩
        sampleConfig = Except.ok bt ∧
      bt.static_lib = some "/o/libx.a" ∧
      bt.shared_lib = none ∧
      bt.impl_lib = none ∧
      bt.debug_info = none ∧
      bt.def_file = none :=
  ⟨rfl,
   c4_field_selection "x" ⟨false, "", "linux", ""⟩ "/o" ⟨true, false⟩
     sampleConfig ⟨"/o/libx.a", "/o/libx.so", none, none, none⟩ rfl⟩

/-- C5: for every artifact set and every pair of install directories, the
debug-info install path is the library directory joined with just the file
name of the debug-info path under SharedObject/DynamicLibrary
classification, the binary directory joined with just the file name under
Windows-style classification, and absent (never an error) whenever the
artifact set has no debug-info path. -/
theorem c5_debug_info_install (bt : BuildTargets) (bindir libdir : String) :
    (bt.debug_info = none → bt.debug_info_file_name bindir libdir = none) ∧
    (∀ p n, bt.debug_info = some p → fileName p = some n →
      ((bt.lib_type = LibType.So ∨ bt.lib_type = LibType.Dylib) →
        bt.debug_info_file_name bindir libdir = some (pathJoin libdir n)) ∧
      (bt.lib_type = LibType.Windows →
        bt.debug_info_file_name bindir libdir = some (pathJoin bindir n))) := by
  unfold BuildTargets.debug_info_file_name
  constructor
  · intro h
    rcases hl : bt.lib_type <;> simp [hl, h]
  · intro p n hp hn
    refine ⟨fun hc => ?_, fun hc => ?_⟩
    · rcases hc with h | h <;> simp [h, hp, hn]
    · simp [hc, hp, hn]

theorem c5_debug_info_install_witness :
    (btSo.debug_info = some "/o/f.debug" ∧ fileName "/o/f.debug" = some "f.debug" ∧
      (btSo.lib_type = LibType.So ∨ btSo.lib_type = LibType.Dylib) ∧
      btSo.debug_info_file_name "/bin" "/lib" = some "/lib/f.debug") ∧
    (btWin.debug_info = some "/o/f.pdb" ∧ fileName "/o/f.pdb" = some "f.pdb" ∧
      btWin.lib_type = LibType.Windows ∧
      btWin.debug_info_file_name "/bin" "/lib" = some "/bin/f.pdb") ∧
    (btLinux.debug_info = none ∧
      btLinux.debug_info_file_name "/bin" "/lib" = none) :=
  ⟨⟨rfl, rfl, Or.inl rfl,
    ((c5_debug_info_install btSo "/bin" "/lib").2 "/o/f.debug" "f.debug" rfl rfl).1
      (Or.inl rfl)⟩,
   ⟨rfl, rfl, rfl,
    ((c5_debug_info_install btWin "/bin" "/lib").2 "/o/f.pdb" "f.pdb" rfl rfl).2 rfl⟩,
   ⟨rfl, (c5_debug_info_install btLinux "/bin" "/lib").1 rfl⟩⟩

/-- C6: `extra_targets` resolves every *Asset* declaration against the source
root (also when no output root is supplied), resolves every *Generated*
declaration against the build-output root only when one was supplied and
otherwise contributes zero pairs without error, and flattens everything into
one sequence in declaration order, then expansion order within each
declaration — that is, it agrees with the spec-side `resolveAllSpec` /
`resolveDeclSpec`. -/
theorem c6_extra_target_resolution (ts : List InstallTarget) (root : String)
    (out : Option String) :
    extra_targets ts root out = resolveAllSpec root out ts :=
  extra_targets_eq_resolveAllSpec ts root out

/-- C7 counterexample: under `cfgDataFails` the `include` declarations
resolve and the `data` declarations fail, so `ExtraTargets::setup` errors
but the collection has already been updated with the resolved include
pairs — it is not left without partially resolved results on error. -/
theorem c7_counterexample :
    (ExtraTargets.setup ⟨[], []⟩ cfgDataFails "/src" none).2 =
      Except.error "malformed" ∧
    (ExtraTargets.setup ⟨[], []⟩ cfgDataFails "/src" none).1 =
      ⟨[("/src/a.h", "include/a.h")], []⟩ ∧
    (ExtraTargets.setup ⟨[], []⟩ cfgDataFails "/src" none).1 ≠ ⟨[], []⟩ :=
  ⟨rfl, rfl, by decide⟩

/-- C7 (amended): if expanding any individual declaration fails, that
invocation of `extra_targets` aborts with an error and returns no list of
pairs; `ExtraTargets::setup` propagates the failure, leaving the collection
untouched when the `include` resolution fails — but when the `include`
resolution succeeds and the `data` resolution fails, the collection's
`include` field has already been replaced by the fully resolved include
pairs. -/
theorem c7_abort_on_failure (ts : List InstallTarget) (root : String)
    (out : Option String) (t : InstallTarget) (e : String)
    (self : ExtraTargets) (cfg : CApiConfig)
    (ht : t ∈ ts) (he : resolveDeclSpec root out t = Except.error e) :
    (∃ msg, extra_targets ts root out = Except.error msg) ∧
    (∀ e', extra_targets cfg.install.«include» root out = Except.error e' →
      ExtraTargets.setup self cfg root out = (self, Except.error e')) ∧
    (∀ inc e', extra_targets cfg.install.«include» root out = Except.ok inc →
      extra_targets cfg.install.data root out = Except.error e' →
      ExtraTargets.setup self cfg root out =
        ({ self with «include» := inc }, Except.error e')) := by
  refine ⟨?_, ?_, ?_⟩
  · rw [extra_targets_eq_resolveAllSpec]
    exact resolveAllSpec_error_of_mem root out t e ts ht he
  · intro e' h
    unfold ExtraTargets.setup
    rw [h]
  · intro inc e' h1 h2
    unfold ExtraTargets.setup
    rw [h1, h2]

theorem c7_abort_on_failure_witness :
    assetBad ∈ [assetBad] ∧
    resolveDeclSpec "/src" none assetBad = Except.error "malformed" ∧
    (∃ msg, extra_targets [assetBad] "/src" none = Except.error msg) :=
  ⟨List.mem_cons_self assetBad [], rfl,
   (c7_abort_on_failure [assetBad] "/src" none assetBad "malformed" ⟨[], []⟩
     sampleConfig (List.mem_cons_self assetBad []) rfl).1⟩

/-- C8: every successfully constructed artifact set has package-config path
equal to the output directory joined with the configured filename plus
`.pc`, which is non-empty; its target equals the one it was built for; and
its extra-targets collection is empty at construction. -/
theorem c8_invariants (name : String) (t : Target) (targetdir : String)
    (lt : LibraryTypes) (cfg : CApiConfig) (bt : BuildTargets)
    (h : BuildTargets.new name t targetdir lt cfg = Except.ok bt) :
    bt.pc = pathJoin targetdir (cfg.pkg_config.filename ++ ".pc") ∧
    bt.pc ≠ "" ∧ bt.target = t ∧ bt.extra = ⟨[], []⟩ := by
  unfold BuildTargets.new at h
  cases hf : FileNames.from_target t name targetdir with
  | none =>
    rw [hf] at h
    cases h
  | some fn =>
    rw [hf] at h
    injection h with h
    subst h
    refine ⟨rfl, ?_, rfl, rfl⟩
    exact pathJoin_ne_empty targetdir _
      (string_append_ne_empty cfg.pkg_config.filename ".pc" (by decide))

theorem c8_invariants_witness :
    BuildTargets.new "x" ⟨false, "", "linux", ""⟩ "/o" ⟨true, false⟩
        sampleConfig = Except.ok btLinux ∧
    (btLinux.pc = pathJoin "/o" (sampleConfig.pkg_config.filename ++ ".pc") ∧
      btLinux.pc ≠ "" ∧ btLinux.target = ⟨false, "", "linux", ""⟩ ∧
      btLinux.extra = ⟨[], []⟩) :=
  ⟨rfl,
   c8_invariants "x" ⟨false, "", "linux", ""⟩ "/o" ⟨true, false⟩ sampleConfig
     btLinux rfl⟩

/-- C9: the header path of the artifact set is present exactly when header
generation is both enabled and configured to be auto-generated, absent
otherwise. -/
theorem c9_header_presence (name : String) (t : Target) (targetdir : String)
    (lt : LibraryTypes) (cfg : CApiConfig) (bt : BuildTargets)
    (h : BuildTargets.new name t targetdir lt cfg = Except.ok bt) :
    bt.«include».isSome = (cfg.header.enabled && cfg.header.generation) := by
  unfold BuildTargets.new at h
  cases hf : FileNames.from_target t name targetdir with
  | none =>
    rw [hf] at h
    cases h
  | some fn =>
    rw [hf] at h
    injection h with h
    subst h
    cases hcond : cfg.header.enabled && cfg.header.generation <;>
      simp [hcond]

/-- The artifact set built for a linux target under `headerConfig`. -/
def btLinuxHdr : BuildTargets :=
  { name := "x", «include» := some "/o/capi.h", static_lib := some "/o/libx.a"
    shared_lib := none, impl_lib := none, debug_info := none, def_file := none
    pc := "/o/capi.pc", target := ⟨false, "", "linux", ""⟩
    extra := ⟨[], []⟩ }

theorem c9_header_presence_witness :
    (BuildTargets.new "x" ⟨false, "", "linux", ""⟩ "/o" ⟨true, false⟩
        headerConfig = Except.ok btLinuxHdr ∧
      btLinuxHdr.«include».isSome =
        (headerConfig.header.enabled && headerConfig.header.generation)) ∧
    (BuildTargets.new "x" ⟨false, "", "linux", ""⟩ "/o" ⟨true, false⟩
        sampleConfig = Except.ok btLinux ∧
      btLinux.«include».isSome =
        (sampleConfig.header.enabled && sampleConfig.header.generation)) :=
  ⟨⟨rfl,
    c9_header_presence "x" ⟨false, "", "linux", ""⟩ "/o" ⟨true, false⟩
      headerConfig btLinuxHdr rfl⟩,
   ⟨rfl,
    c9_header_presence "x" ⟨false, "", "linux", ""⟩ "/o" ⟨true, false⟩
      sampleConfig btLinux rfl⟩⟩

/-- C10: the naming resolver inspects the environment string only when the
OS is `windows` — on every other OS the produced names are the same for any
two environment strings — and on `windows` every environment other than
exactly `msvc` (including the empty and unknown ones) receives the GNU-style
names rather than failing as unsupported. -/
theorem c10_env_only_on_windows (os arch env1 env2 nm dir : String)
    (ov : Bool) :
    (os ≠ "windows" →
      FileNames.from_target ⟨ov, arch, os, env1⟩ nm dir =
        FileNames.from_target ⟨ov, arch, os, env2⟩ nm dir) ∧
    (∀ env, env ≠ "msvc" →
      FileNames.from_target ⟨ov, arch, "windows", env⟩ nm dir =
        some { static_lib := pathJoin dir ("lib" ++ nm ++ ".a")
               shared_lib := pathJoin dir (nm ++ ".dll")
               impl_lib := some (pathJoin dir ("lib" ++ nm ++ ".dll.a"))
               debug_info := none, def_file := none }) := by
  constructor
  · intro h
    unfold FileNames.from_target
    by_cases h1 : os ∈ ["none", "linux", "freebsd", "dragonfly", "netbsd",
      "android", "haiku", "illumos", "openbsd", "emscripten", "hurd"]
    · simp [h1]
    · by_cases h2 : os ∈ ["macos", "ios", "tvos", "visionos"]
      · simp [h1, h2]
      · simp [h1, h2, h]
  · intro env he
    unfold FileNames.from_target
    rw [if_neg (show ("windows" : String) ∉ ["none", "linux", "freebsd",
          "dragonfly", "netbsd", "android", "haiku", "illumos", "openbsd",
          "emscripten", "hurd"] by decide),
        if_neg (show ("windows" : String) ∉ ["macos", "ios", "tvos",
          "visionos"] by decide),
        if_pos (show ("windows" : String) = "windows" from rfl), if_neg he]

theorem c10_env_only_on_windows_witness :
    ("linux" ≠ "windows" ∧
      FileNames.from_target ⟨false, "", "linux", "msvc"⟩ "f" "/o" =
        FileNames.from_target ⟨false, "", "linux", "gnu"⟩ "f" "/o") ∧
    ("sgx" ≠ "msvc" ∧
      FileNames.from_target ⟨false, "", "windows", "sgx"⟩ "f" "/o" =
        some { static_lib := "/o/libf.a", shared_lib := "/o/f.dll"
               impl_lib := some "/o/libf.dll.a"
               debug_info := none, def_file := none }) ∧
    ("" ≠ "msvc" ∧
      FileNames.from_target ⟨false, "", "windows", ""⟩ "f" "/o" =
        some { static_lib := "/o/libf.a", shared_lib := "/o/f.dll"
               impl_lib := some "/o/libf.dll.a"
               debug_info := none, def_file := none }) :=
  ⟨⟨by decide,
    (c10_env_only_on_windows "linux" "" "msvc" "gnu" "f" "/o" false).1
      (by decide)⟩,
   ⟨by decide,
    (c10_env_only_on_windows "linux" "" "" "" "f" "/o" false).2 "sgx"
      (by decide)⟩,
   ⟨by decide,
    (c10_env_only_on_windows "linux" "" "" "" "f" "/o" false).2 ""
      (by decide)⟩⟩
